import Mathlib

/-!
Verification model of the douban-to-imdb repository: a shallow embedding of
the two scripts douban_to_csv.py (the exporter) and csv_to_imdb.py (the
importer).  Python strings are modelled as lists of characters (PyStr);
Python operations that can raise return Option, with the caught-exception
paths of the scripts modelled explicitly.  Network and browser behaviour is
supplied through environment records so that the control flow of the
scripts stays a pure function of those inputs.
-/

/-- Python strings are modelled as lists of characters. -/
abbrev PyStr := List Char

/-- Python ASCII whitespace, as removed by str.strip and by int(). -/
def pySpace (c : Char) : Bool :=
  c = ' ' || c = '\t' || c = '\n' || c = '\r' || c = '\x0b' || c = '\x0c'

/-- Python str.strip(): remove leading and trailing whitespace. -/
def pyStrip (s : PyStr) : PyStr :=
  ((s.dropWhile pySpace).reverse.dropWhile pySpace).reverse

/-- Python substring test (the in operator on str): needle occurs in hay. -/
def containsSub (needle : PyStr) : PyStr → Bool
  | [] => needle.isEmpty
  | c :: rest => needle.isPrefixOf (c :: rest) || containsSub needle rest

/-- Fuel-indexed body of Python str.replace(old, new): replace every
non-overlapping occurrence of old scanning left to right.  The fuel is the
length of the scanned string, so it never runs out; modelled for nonempty
old, the only way the scripts call it. -/
def pyReplaceFuel (old new : PyStr) : Nat → PyStr → PyStr
  | 0, s => s
  | _ + 1, [] => []
  | fuel + 1, c :: rest =>
    if (!old.isEmpty) && old.isPrefixOf (c :: rest) then
      new ++ pyReplaceFuel old new fuel ((c :: rest).drop old.length)
    else
      c :: pyReplaceFuel old new fuel rest

/-- Python str.replace(old, new). -/
def pyReplace (s old new : PyStr) : PyStr :=
  pyReplaceFuel old new s.length s

/-- Digit tail of a Python int literal: after the first digit, underscores
may appear only singly and only between digits. -/
def pyDigitsAux : Nat → PyStr → Option Nat
  | acc, [] => some acc
  | acc, '_' :: c :: rest =>
    if c.isDigit then pyDigitsAux (acc * 10 + (c.toNat - 48)) rest else none
  | _, ['_'] => none
  | acc, c :: rest =>
    if c.isDigit then pyDigitsAux (acc * 10 + (c.toNat - 48)) rest else none

/-- Digit part of a Python int literal: nonempty and starting with a digit. -/
def pyDigits : PyStr → Option Nat
  | c :: rest => if c.isDigit then pyDigitsAux (c.toNat - 48) rest else none
  | [] => none

/-- Python int(str): strip whitespace, optional sign, then digits (ASCII
digits modelled); none where Python raises ValueError. -/
def pyInt (s : PyStr) : Option Int :=
  match pyStrip s with
  | '+' :: rest => (pyDigits rest).map (fun n => (n : Int))
  | '-' :: rest => (pyDigits rest).map (fun n => -(n : Int))
  | rest => (pyDigits rest).map (fun n => (n : Int))

/-- get_rating (douban_to_csv.py lines 614-633): extract the star value from
a CSS class such as rating4-t by deleting every occurrence of rating and of
-t and parsing the remainder with int(); None for a missing or falsy class,
a remainder that does not parse, or a parsed value outside 1..5. -/
def get_rating (rating_class : Option PyStr) : Option Int :=
  match rating_class with
  | none => none
  | some s =>
    if s = [] then none
    else
      match pyInt (pyReplace (pyReplace s ("rating").data []) ("-t").data []) with
      | none => none
      | some d => if 1 ≤ d ∧ d ≤ 5 then some d else none

/-- Boolean test for the canonical class shape rating + digit in 1..5 + -t
named by claim C10. -/
def isCanonicalRatingClass (s : PyStr) : Bool :=
  s == ("rating1-t").data || s == ("rating2-t").data || s == ("rating3-t").data ||
    s == ("rating4-t").data || s == ("rating5-t").data

/-- C10 counterexample: the claim says every class string that is not of the
form rating + digit-in-[1,5] + -t yields None, but get_rating applied to the
bare string 3 (not of that form) returns 3, because int() succeeds on the
remainder after the two replacements remove nothing. -/
theorem get_rating_noncanonical_cex :
    get_rating (some (("3").data)) = some 3
    ∧ isCanonicalRatingClass (("3").data) = false := by
  decide

/-- C10 (amended): get_rating is total and never raises: for every input it
returns None or an integer in [1,5]; the result is obtained by deleting every
occurrence of rating and of -t and parsing the remainder as an int, with None
when that parse fails or the value falls outside 1..5 — but class strings not
of the canonical ratingN-t form can still yield a value when their remainder
happens to parse into 1..5. -/
theorem get_rating_total_range (s : Option PyStr) :
    get_rating s = none ∨ ∃ d : Int, get_rating s = some d ∧ 1 ≤ d ∧ d ≤ 5 := by
  cases s with
  | none => exact Or.inl rfl
  | some t =>
    by_cases ht : t = []
    · exact Or.inl (by simp [get_rating, ht])
    · cases hp : pyInt (pyReplace (pyReplace t ("rating").data []) ("-t").data []) with
      | none => exact Or.inl (by simp [get_rating, ht, hp])
      | some d =>
        by_cases hd : 1 ≤ d ∧ d ≤ 5
        · exact Or.inr ⟨d, by simp [get_rating, ht, hp, hd], hd.1, hd.2⟩
        · exact Or.inl (by simp [get_rating, ht, hp, hd])

/-- Outcome of one CSV row in the importer loop of mark (csv_to_imdb.py
lines 140-258), up to the point where a network search would start: skip is
the continue for an empty rating, notFound the malformed-id classification,
attempt means the row proceeds to the IMDb search with the converted rating,
and lineError the outer exception handler (recorded says whether the row is
appended to the error list, which requires at least 3 fields and truthy
name and id). -/
inductive RowAction
  | skip
  | notFound (name : PyStr)
  | attempt (name : PyStr) (rate : Int) (id : PyStr)
  | lineError (recorded : Bool)
deriving DecidableEq

/-- Row handling of mark (csv_to_imdb.py lines 140-159): continue on an
empty rating field; compute int(line[1]) * 2 + rating_ajust; classify rows
whose id is empty or lacks the tt prefix as not found; index errors on short
rows and int() ValueError flow to the outer handler of lines 254-258. -/
def mark_line (rating_ajust : Int) (line : List PyStr) : RowAction :=
  match line with
  | name :: rating :: rest =>
    if rating = [] then .skip
    else
      match pyInt rating with
      | none =>
        match rest.head? with
        | some id2 => .lineError ((!name.isEmpty) && (!id2.isEmpty))
        | none => .lineError false
      | some src =>
        match rest with
        | [] => .lineError false
        | imdb_id :: _ =>
          if imdb_id = [] ∨ ¬ (("tt").data.isPrefixOf imdb_id) then .notFound name
          else .attempt name (src * 2 + rating_ajust) imdb_id
  | _ => .lineError false

/-- Tallies kept by mark: the not-found list, the rows that reach the IMDb
search (with their converted rating), the error count and the silent skips. -/
structure MarkSummary where
  can_not_found : List PyStr
  attempts : List (PyStr × Int × PyStr)
  errors : Nat
  skipped : Nat
deriving DecidableEq

/-- mark over a whole CSV: fold mark_line over the rows in order. -/
def mark_rows (rating_ajust : Int) : List (List PyStr) → MarkSummary
  | [] => ⟨[], [], 0, 0⟩
  | line :: rest =>
    let s := mark_rows rating_ajust rest
    match mark_line rating_ajust line with
    | .skip => ⟨s.can_not_found, s.attempts, s.errors, s.skipped + 1⟩
    | .notFound n => ⟨n :: s.can_not_found, s.attempts, s.errors, s.skipped⟩
    | .attempt n r i => ⟨s.can_not_found, (n, r, i) :: s.attempts, s.errors, s.skipped⟩
    | .lineError true => ⟨s.can_not_found, s.attempts, s.errors + 1, s.skipped⟩
    | .lineError false => s

/-- C1: for every CSV row whose rating field parses as an integer source in
[1,5] and every adjustment in [-2,2], the destination rating computed by
mark is exactly source * 2 + adjustment and lies in [0,12], with no clamping
at the boundaries. -/
theorem mark_rating_conversion
    (adj src : Int) (name rating id : PyStr) (rest : List PyStr)
    (hne : rating ≠ []) (hparse : pyInt rating = some src)
    (h1 : 1 ≤ src) (h5 : src ≤ 5) (ha : -2 ≤ adj) (ha' : adj ≤ 2)
    (hid : ("tt").data.isPrefixOf id = true) :
    mark_line adj (name :: rating :: id :: rest)
      = .attempt name (src * 2 + adj) id
    ∧ 0 ≤ src * 2 + adj ∧ src * 2 + adj ≤ 12 := by
  have hidne : id ≠ [] := by
    intro h
    rw [h] at hid
    simp [List.isPrefixOf] at hid
  refine ⟨?_, by omega, by omega⟩
  simp [mark_line, hne, hparse, hidne, hid]

/-- Witness for C1 at the boundary: source 5, adjustment +2 gives exactly 12
(no clamping to 10). -/
theorem mark_rating_conversion_witness :
    mark_line 2 [("Alien").data, ("5").data, ("tt0078748").data]
      = .attempt (("Alien").data) (5 * 2 + 2) (("tt0078748").data)
    ∧ (0 : Int) ≤ 5 * 2 + 2 ∧ (5 : Int) * 2 + 2 ≤ 12 :=
  mark_rating_conversion 2 5 (("Alien").data) (("5").data) (("tt0078748").data) []
    (by decide) (by decide) (by decide) (by decide) (by decide) (by decide) (by decide)

/-- C5 counterexample: the claim says a row with an empty rating field is
classified as not found, but mark skips it at the continue of
csv_to_imdb.py line 144: it lands in no list at all, in particular not in
the not-found list, and no search is attempted. -/
theorem mark_empty_rating_cex :
    mark_line (-1) [("X").data, [], ("tt0000001").data] = .skip
    ∧ (mark_rows (-1) [[("X").data, [], ("tt0000001").data]]).can_not_found = []
    ∧ (mark_rows (-1) [[("X").data, [], ("tt0000001").data]]).attempts = [] := by
  decide

/-- C5 (amended): a row with an empty rating field is skipped silently — no
search fetch and no classification at all; a row with a nonempty rating that
parses as an int, whose external id is empty or does not start with tt, is
classified not found with no search fetch attempted. -/
theorem mark_skip_and_not_found (adj : Int) (name rating id : PyStr) :
    (rating = [] → mark_line adj [name, rating, id] = .skip)
    ∧ (∀ src : Int, pyInt rating = some src → rating ≠ [] →
        (id = [] ∨ ¬ (("tt").data.isPrefixOf id = true)) →
        mark_line adj [name, rating, id] = .notFound name) := by
  constructor
  · intro h
    simp [mark_line, h]
  · intro src hsrc hne hid
    simp [mark_line, hne, hsrc]
    intro hne2
    rcases hid with h | h
    · exact absurd h hne2
    · simpa using h

/-- Witness for C5 (amended): an empty-rating row is skipped; the row
(Unknown Film, 4, empty id) is classified not found. -/
theorem mark_skip_and_not_found_witness :
    mark_line (-1) [("A").data, [], ("tt1").data] = .skip
    ∧ mark_line (-1) [("Unknown Film").data, ("4").data, []]
        = .notFound (("Unknown Film").data) :=
  ⟨(mark_skip_and_not_found (-1) (("A").data) [] (("tt1").data)).1 rfl,
   (mark_skip_and_not_found (-1) (("Unknown Film").data) (("4").data) []).2
     4 (by decide) (by decide) (Or.inl rfl)⟩

/-- Action selected by the importer entry point (csv_to_imdb.py lines
296-311): usage-and-exit, or run mark with an unmark flag and adjustment. -/
inductive CliAction
  | usage
  | run (is_unmark : Bool) (rating_ajust : Int)
deriving DecidableEq

/-- Argument dispatch of the importer entry point (csv_to_imdb.py lines
296-311): the literal unmark token, else membership in the five canonical
integer strings, else a usage message and exit; no argument defaults to
mark with adjustment -1.  Arguments beyond the first are ignored. -/
def importer_cli (args : List PyStr) : CliAction :=
  match args with
  | [] => .run false (-1)
  | a :: _ =>
    if a = ("unmark").data then .run true (-1)
    else if a = ("-2").data ∨ a = ("-1").data ∨ a = ("0").data
        ∨ a = ("1").data ∨ a = ("2").data then
      .run false ((pyInt a).getD 0)
    else .usage

/-- C8: the importer accepts one optional argument: the unmark token or one
of the five canonical integer strings -2..2 (default adjustment -1 with no
argument); every other value — including integers in [-2,2] written
non-canonically — yields the usage action, so no row is processed. -/
theorem importer_cli_surface :
    importer_cli [] = .run false (-1)
    ∧ importer_cli [("unmark").data] = .run true (-1)
    ∧ importer_cli [("-2").data] = .run false (-2)
    ∧ importer_cli [("-1").data] = .run false (-1)
    ∧ importer_cli [("0").data] = .run false 0
    ∧ importer_cli [("1").data] = .run false 1
    ∧ importer_cli [("2").data] = .run false 2
    ∧ ∀ a : PyStr, a ≠ ("unmark").data →
        ¬ (a = ("-2").data ∨ a = ("-1").data ∨ a = ("0").data
            ∨ a = ("1").data ∨ a = ("2").data) →
        importer_cli [a] = .usage := by
  refine ⟨by decide, by decide, by decide, by decide, by decide, by decide, by decide, ?_⟩
  intro a h1 h2
  simp [importer_cli, h1, h2]

/-- Witness for C8: the non-canonical spelling +1 of an integer in [-2,2] is
rejected with the usage action. -/
theorem importer_cli_surface_witness :
    importer_cli [("+1").data] = CliAction.usage :=
  importer_cli_surface.2.2.2.2.2.2.2 (("+1").data) (by decide) (by decide)

/-- Leftmost match of the pattern tt followed by one or more digits when it
starts here: take the maximal digit run after tt. -/
def ttHere : PyStr → Option PyStr
  | 't' :: 't' :: rest =>
    match rest.takeWhile Char.isDigit with
    | [] => none
    | ds => some ('t' :: 't' :: ds)
  | _ => none

/-- re.search of tt followed by digits: the leftmost match in the string. -/
def findTt : PyStr → Option PyStr
  | [] => none
  | c :: rest =>
    match ttHere (c :: rest) with
    | some m => some m
    | none => findTt rest

/-- One span element of class pl inside the info section of a detail page:
its text, and the following sibling when that node is a plain string. -/
structure InfoSpan where
  text : PyStr
  nextSib : Option PyStr
deriving DecidableEq

/-- A Douban detail page as far as get_imdb_id reads it: whether the info
section exists, its span.pl elements in order, the hrefs of the anchors of
the whole page in document order, and the stripped strings of the info
section in order. -/
structure DetailPage where
  hasInfo : Bool
  infoSpans : List InfoSpan
  anchorHrefs : List PyStr
  infoStrings : List PyStr
deriving DecidableEq

/-- Strategy 1 of get_imdb_id (douban_to_csv.py lines 668-674): the first
span.pl whose text contains IMDb and whose next sibling is a truthy string
that, stripped, starts with tt; spans failing any of these tests are passed
over and the loop continues. -/
def imdb_label_text : List InfoSpan → Option PyStr
  | [] => none
  | sp :: rest =>
    if containsSub (("IMDb").data) sp.text then
      match sp.nextSib with
      | some s =>
        if s = [] then imdb_label_text rest
        else
          if ("tt").data.isPrefixOf (pyStrip s) then some (pyStrip s)
          else imdb_label_text rest
      | none => imdb_label_text rest
    else imdb_label_text rest

/-- Strategy 2 of get_imdb_id (lines 677-682): the first anchor whose href
contains imdb.com/title/tt, searched for the pattern tt plus digits. -/
def imdb_href (anchorHrefs : List PyStr) : Option PyStr :=
  (anchorHrefs.find? (fun h => containsSub (("imdb.com/title/tt").data) h)).bind findTt

/-- Strategy 3 of get_imdb_id (lines 685-687): the first stripped string of
the info section that starts with tt, has length above 3, and consists of
digits after the tt. -/
def imdb_token_scan : List PyStr → Option PyStr
  | [] => none
  | t :: rest =>
    if ("tt").data.isPrefixOf t ∧ 3 < t.length ∧ (t.drop 2).all Char.isDigit then some t
    else imdb_token_scan rest

/-- get_imdb_id (douban_to_csv.py lines 636-693) on an already-fetched
detail page: none when the fetch failed or the info section is missing,
otherwise the three strategies in their fixed order; the top-level handler
turns any failure into none, so absence of a match is a null id, never a
raised error. -/
def get_imdb_id (page : Option DetailPage) : Option PyStr :=
  match page with
  | none => none
  | some p =>
    if p.hasInfo = false then none
    else
      match imdb_label_text p.infoSpans with
      | some id => some id
      | none =>
        match imdb_href p.anchorHrefs with
        | some m => some m
        | none => imdb_token_scan p.infoStrings

/-- C6: external-id resolution tries the three strategies in fixed order:
when the label-adjacent strategy yields nothing but an anchor href matches
tt plus digits, the href match is returned; and when no strategy matches,
the result is a null external id rather than a raised failure. -/
theorem get_imdb_id_fallback (p : DetailPage)
    (hinfo : p.hasInfo = true)
    (h1 : imdb_label_text p.infoSpans = none) :
    (∀ m, imdb_href p.anchorHrefs = some m → get_imdb_id (some p) = some m)
    ∧ (imdb_href p.anchorHrefs = none → imdb_token_scan p.infoStrings = none →
        get_imdb_id (some p) = none) := by
  constructor
  · intro m hm
    simp [get_imdb_id, hinfo, h1, hm]
  · intro h2 h3
    simp [get_imdb_id, hinfo, h1, h2, h3]

/-- Witness for C6: a page whose info section has no label-adjacent IMDb
text but whose anchors include a link to imdb.com/title/tt0078748 resolves
to tt0078748. -/
theorem get_imdb_id_fallback_witness :
    get_imdb_id (some ⟨true, [], [("https://www.imdb.com/title/tt0078748/").data], []⟩)
      = some (("tt0078748").data) :=
  (get_imdb_id_fallback ⟨true, [], [("https://www.imdb.com/title/tt0078748/").data], []⟩
    rfl rfl).1 (("tt0078748").data) (by decide)

/-- Date information scraped for one collection item after the format
normalization of douban_to_csv.py lines 772-811: the date element can be
missing entirely (the code falls back to today), present but matching none
of the three accepted formats (the cutoff strptime at line 815 then raises
and the item is skipped), or parsed, represented as a day key with the
same order as datetime comparison. -/
inductive DateInfo
  | missing
  | unparseable (raw : PyStr)
  | parsed (day : Nat)
deriving DecidableEq

/-- One collection-page item as get_info reads it (douban_to_csv.py lines
731-829): title text when some title selector matched, the douban link when
an anchor was present, the CSS rating class when a rating span was found,
and the date information. -/
structure PageItem where
  title : Option PyStr
  link : Option PyStr
  ratingClass : Option PyStr
  date : DateInfo
deriving DecidableEq

/-- One exported movie row: title, optional 1-5 rating, optional IMDb id. -/
structure MovieRecord where
  title : PyStr
  rating : Option Int
  imdb : Option PyStr
deriving DecidableEq

/-- Whether an item makes get_info stop the run: title and link extraction
must succeed (their failures skip the item first), and the effective date —
the parsed date, or today when the date was missing — is at or before the
cutoff; an item with an unparseable date is skipped instead. -/
def item_halts (cutoff today : Nat) (it : PageItem) : Bool :=
  match it.title, it.link, it.date with
  | some _, some _, .parsed d => d ≤ cutoff
  | some _, some _, .missing => today ≤ cutoff
  | _, _, _ => false

/-- The parsed date keys of a list of items, in page order. -/
def dateKeys (items : List PageItem) : List Nat :=
  items.filterMap (fun it =>
    match it.date with
    | .parsed d => some d
    | _ => none)

/-- Item loop of get_info (douban_to_csv.py lines 731-835): skip items with
no title or link, skip items whose date text parses in none of the accepted
formats, stop the whole run (IS_OVER, returned as the Boolean) at the first
item whose effective date is at or before the cutoff, and otherwise emit a
record whose rating comes from get_rating and whose id comes from the
detail-page fetch, abstracted as imdbOf on the douban link. -/
def get_info_items (cutoff today : Nat) (imdbOf : PyStr → Option PyStr) :
    List PageItem → List MovieRecord × Bool
  | [] => ([], false)
  | it :: rest =>
    match it.title, it.link with
    | some t, some l =>
      match it.date with
      | .unparseable _ => get_info_items cutoff today imdbOf rest
      | .missing =>
        if today ≤ cutoff then ([], true)
        else
          let r := get_info_items cutoff today imdbOf rest
          (⟨t, get_rating it.ratingClass, imdbOf l⟩ :: r.1, r.2)
      | .parsed d =>
        if d ≤ cutoff then ([], true)
        else
          let r := get_info_items cutoff today imdbOf rest
          (⟨t, get_rating it.ratingClass, imdbOf l⟩ :: r.1, r.2)
    | _, _ => get_info_items cutoff today imdbOf rest

/-- get_info (douban_to_csv.py lines 696-835) for one page: none when the
page fetch failed or no movie item was found on the page, else the item
loop; the Boolean is the process-wide IS_OVER flag. -/
def get_info (cutoff today : Nat) (imdbOf : PyStr → Option PyStr)
    (page : Option (List PageItem)) : Option (List MovieRecord) × Bool :=
  match page with
  | none => (none, false)
  | some [] => (none, false)
  | some items =>
    let r := get_info_items cutoff today imdbOf items
    (some r.1, r.2)

/-- Page loop of export (douban_to_csv.py lines 309-344): process the pages
in order, breaking before the next page once IS_OVER is set; pages whose
get_info produced nothing contribute no rows.  Returns the collected
records, the number of pages processed, and the final IS_OVER flag. -/
def export_pages (cutoff today : Nat) (imdbOf : PyStr → Option PyStr) :
    List (Option (List PageItem)) → List MovieRecord × Nat × Bool
  | [] => ([], 0, false)
  | p :: ps =>
    let r := get_info cutoff today imdbOf p
    let recs := r.1.getD []
    if r.2 then (recs, 1, true)
    else
      let rest := export_pages cutoff today imdbOf ps
      (recs ++ rest.1, rest.2.1 + 1, rest.2.2)

/-- Processing a page prefix none of whose items halts composes: the
remainder of the item list is processed after it. -/
theorem get_info_items_append_no_halt
    (cutoff today : Nat) (imdbOf : PyStr → Option PyStr)
    (xs ys : List PageItem)
    (hxs : ∀ it ∈ xs, item_halts cutoff today it = false) :
    get_info_items cutoff today imdbOf (xs ++ ys)
      = ((get_info_items cutoff today imdbOf xs).1
          ++ (get_info_items cutoff today imdbOf ys).1,
         (get_info_items cutoff today imdbOf ys).2) := by
  induction xs with
  | nil => simp [get_info_items]
  | cons it rest ih =>
    have hit : item_halts cutoff today it = false := hxs it (List.mem_cons_self it rest)
    have hrest : ∀ x ∈ rest, item_halts cutoff today x = false :=
      fun x hx => hxs x (List.mem_cons_of_mem it hx)
    have ih' := ih hrest
    cases htl : it.title with
    | none => simpa [get_info_items, htl] using ih'
    | some t =>
      cases hlk : it.link with
      | none => simpa [get_info_items, htl, hlk] using ih'
      | some l =>
        cases hdt : it.date with
        | unparseable raw => simpa [get_info_items, htl, hlk, hdt] using ih'
        | missing =>
          have hlt : ¬ today ≤ cutoff := by
            simpa [item_halts, htl, hlk, hdt] using hit
          simp [get_info_items, htl, hlk, hdt, hlt, ih']
        | parsed d =>
          have hlt : ¬ d ≤ cutoff := by
            simpa [item_halts, htl, hlk, hdt] using hit
          simp [get_info_items, htl, hlk, hdt, hlt, ih']

/-- An item with title and link whose parsed date is at or before the cutoff
stops the item loop at once: nothing is emitted from it or beyond it. -/
theorem get_info_items_halt_head
    (cutoff today : Nat) (imdbOf : PyStr → Option PyStr)
    (bad : PageItem) (after : List PageItem) (bt bl : PyStr) (bd : Nat)
    (hbt : bad.title = some bt) (hbl : bad.link = some bl)
    (hbd : bad.date = .parsed bd) (hcut : bd ≤ cutoff) :
    get_info_items cutoff today imdbOf (bad :: after) = ([], true) := by
  simp [get_info_items, hbt, hbl, hbd, hcut]

/-- get_info on a fetched, nonempty page runs the item loop. -/
theorem get_info_some (cutoff today : Nat) (imdbOf : PyStr → Option PyStr)
    (items : List PageItem) (h : items ≠ []) :
    get_info cutoff today imdbOf (some items)
      = (some (get_info_items cutoff today imdbOf items).1,
         (get_info_items cutoff today imdbOf items).2) := by
  cases items with
  | nil => exact absurd rfl h
  | cons x xs => rfl

/-- Page prefixes that do not set IS_OVER compose in export. -/
theorem export_pages_append_no_halt
    (cutoff today : Nat) (imdbOf : PyStr → Option PyStr)
    (goodPages rest : List (Option (List PageItem)))
    (hgood : ∀ pg ∈ goodPages, (get_info cutoff today imdbOf pg).2 = false) :
    export_pages cutoff today imdbOf (goodPages ++ rest)
      = ((goodPages.map (fun pg => (get_info cutoff today imdbOf pg).1.getD [])).flatten
          ++ (export_pages cutoff today imdbOf rest).1,
         goodPages.length + (export_pages cutoff today imdbOf rest).2.1,
         (export_pages cutoff today imdbOf rest).2.2) := by
  induction goodPages with
  | nil => simp
  | cons p ps ih =>
    have hp : (get_info cutoff today imdbOf p).2 = false :=
      hgood p (List.mem_cons_self p ps)
    have ih' := ih (fun x hx => hgood x (List.mem_cons_of_mem p hx))
    simp [export_pages, hp, ih']
    omega

/-- C2: on a collection page whose items carry strictly decreasing dates,
extraction stops at the first item whose normalized date is at or before
the cutoff: no record is emitted for that item or any later item of the
page, the process-wide IS_OVER flag is set, and no subsequent page of the
run is processed (the page count stops at the halting page). -/
theorem export_cutoff_halts
    (cutoff today : Nat) (imdbOf : PyStr → Option PyStr)
    (goodPages laterPages : List (Option (List PageItem)))
    (before after : List PageItem) (bad : PageItem)
    (bt bl : PyStr) (bd : Nat)
    (hgood : ∀ pg ∈ goodPages, (get_info cutoff today imdbOf pg).2 = false)
    (hbefore : ∀ it ∈ before, item_halts cutoff today it = false)
    (hbt : bad.title = some bt) (hbl : bad.link = some bl)
    (hbd : bad.date = .parsed bd) (hcut : bd ≤ cutoff)
    (_hdec : List.Chain' (fun a b => b < a) (dateKeys (before ++ bad :: after))) :
    export_pages cutoff today imdbOf
        (goodPages ++ (some (before ++ bad :: after)) :: laterPages)
      = ((goodPages.map (fun pg => (get_info cutoff today imdbOf pg).1.getD [])).flatten
          ++ (get_info_items cutoff today imdbOf before).1,
         goodPages.length + 1, true) := by
  have hpage :
      get_info_items cutoff today imdbOf (before ++ bad :: after)
        = ((get_info_items cutoff today imdbOf before).1, true) := by
    rw [get_info_items_append_no_halt cutoff today imdbOf before (bad :: after) hbefore,
      get_info_items_halt_head cutoff today imdbOf bad after bt bl bd hbt hbl hbd hcut]
    simp
  have hne : before ++ bad :: after ≠ [] := by simp
  have hinfo := get_info_some cutoff today imdbOf (before ++ bad :: after) hne
  rw [export_pages_append_no_halt cutoff today imdbOf goodPages _ hgood]
  simp [export_pages, hinfo, hpage]

/-- Concrete detail-fetch stub for the C2 witness. -/
def c2imdb : PyStr → Option PyStr := fun _ => none

/-- Concrete item with date after the cutoff, emitted normally. -/
def c2itemB : PageItem := ⟨some (("B").data), some (("lb").data), none, .parsed 20230102⟩

/-- Concrete item at or before the cutoff: the halting item. -/
def c2itemC : PageItem := ⟨some (("C").data), some (("lc").data), none, .parsed 20050101⟩

/-- Concrete item after the halting one, never examined. -/
def c2itemD : PageItem := ⟨some (("D").data), some (("ld").data), none, .parsed 20040101⟩

/-- Concrete item for a page after the halting page, never processed. -/
def c2itemA : PageItem := ⟨some (("A").data), some (("la").data), none, .parsed 20230105⟩

/-- Witness for C2: a run with one page of strictly decreasing dates where
the second item reaches the cutoff emits only the first item, processes one
page, sets the flag, and never touches the following page. -/
theorem export_cutoff_halts_witness :
    export_pages 20050502 20251012 c2imdb
        ([] ++ (some ([c2itemB] ++ c2itemC :: [c2itemD])) :: [some [c2itemA]])
      = ((([] : List (Option (List PageItem))).map
            (fun pg => (get_info 20050502 20251012 c2imdb pg).1.getD [])).flatten
          ++ (get_info_items 20050502 20251012 c2imdb [c2itemB]).1,
         ([] : List (Option (List PageItem))).length + 1, true) :=
  export_cutoff_halts 20050502 20251012 c2imdb [] [some [c2itemA]]
    [c2itemB] [c2itemD] c2itemC (("C").data) (("lc").data) 20050101
    (by decide) (by decide) rfl rfl rfl (by decide)
    (by norm_num [dateKeys, c2itemB, c2itemC, c2itemD, List.filterMap_cons, List.chain'_cons])

/-- Driver bookkeeping: whether the process-wide browser session is live and
how many times quit_driver actually quit it. -/
structure DriverState where
  driverUp : Bool
  quitCount : Nat
deriving DecidableEq

/-- quit_driver (douban_to_csv.py lines 142-157): quit and clear the global
DRIVER when it is set, else do nothing. -/
def quit_driver (s : DriverState) : DriverState :=
  if s.driverUp then ⟨false, s.quitCount + 1⟩ else s

/-- How the exporter body inside the try block ends: normally, by operator
interrupt, or by an exception; all three reach the finally block. -/
inductive RunEvent
  | ok
  | interrupt
  | error
deriving DecidableEq

/-- Driver lifecycle of the exporter entry point (douban_to_csv.py lines
838-902).  check_user_exist runs before the try block, and its make_request
on a douban URL goes through Selenium, so setup_driver has already created
the global browser session (line 491); when the user check fails the
process exits at line 870 with no cleanup.  Otherwise the body runs under
try/except/finally and quit_driver (line 901) runs on every outcome,
including interrupt and error. -/
def exporter_main (userExists : Bool) (ev : RunEvent) : DriverState :=
  let s1 : DriverState := ⟨true, 0⟩
  if userExists = false then s1
  else
    match ev with
    | .ok => quit_driver s1
    | .interrupt => quit_driver s1
    | .error => quit_driver s1

/-- How the importer row loop ends: runs to completion or is interrupted. -/
inductive MarkEvent
  | completes
  | interrupted
deriving DecidableEq

/-- Driver lifecycle of the importer (csv_to_imdb.py lines 102-264): login
creates the browser; driver.quit() at line 262 runs only after the whole
row loop completes — a KeyboardInterrupt during the loop propagates out of
mark with no handler and no finally, so the browser is never quit on that
path. -/
def importer_mark_driver (ev : MarkEvent) : DriverState :=
  let s1 : DriverState := ⟨true, 0⟩
  match ev with
  | .completes => quit_driver s1
  | .interrupted => s1

/-- C9 counterexample: the claim says the browser session is torn down on
every process exit path, but when the user-existence check fails the
exporter exits (line 870) after check_user_exist has already created the
session, with the session still acquired and zero teardowns. -/
theorem driver_leak_cex : exporter_main false .ok = ⟨true, 0⟩ := by
  decide

/-- C9 (amended): on every exporter run that passes the user-existence
check the session is torn down exactly once whatever ends the body —
normal completion, operator interrupt or an error — and the importer tears
it down exactly once on normal completion; but the exporter exit on a
failed user check and an interrupt inside the importer row loop terminate
with the session still acquired. -/
theorem driver_teardown_amended :
    (∀ ev : RunEvent, exporter_main true ev = ⟨false, 1⟩)
    ∧ importer_mark_driver .completes = ⟨false, 1⟩
    ∧ importer_mark_driver .interrupted = ⟨true, 0⟩ := by
  refine ⟨fun ev => ?_, by decide, by decide⟩
  cases ev <;> rfl

/-- Outcome of one requests-library attempt inside make_request
(douban_to_csv.py lines 521-597): a 200 response, a non-200 status, an SSL
error whose immediate verification-disabled retry succeeded or failed, a
proxy error, a RequestException whose text contains ConnectionError, or
another RequestException. -/
inductive HttpOutcome
  | ok
  | status (code : Nat)
  | sslOk
  | sslFail
  | proxyErr
  | connErr
  | reqErr
deriving DecidableEq

/-- Outcome of one Selenium attempt inside make_request (lines 489-519 and
586-595): a loaded page with no challenge, a page showing the in-page
connection-error markers (re-raised as WebDriverException at line 505), a
Timeout or WebDriverException from navigation, or a failed login
challenge. -/
inductive BrowserOutcome
  | ok
  | connMarker
  | drvErr
  | loginFail
deriving DecidableEq

/-- Network environment of one make_request call: what the requests library
and the browser would do on each attempt index, and the random.uniform(1,5)
jitter drawn for each backoff. -/
structure FetchEnv where
  http : Nat → HttpOutcome
  browser : Nat → BrowserOutcome
  jitter : Nat → ℚ

/-- Which path produced the returned page content. -/
inductive FetchPath
  | http
  | browser
deriving DecidableEq

/-- Observable events of a make_request call: each attempt with its path
and outcome, the backoff sleep of lines 511 and 601 with its duration, and
the fixed 5 second pause after the refresh in the browser-error handler
(line 593). -/
inductive FetchEv
  | attemptHttp (i : Nat) (o : HttpOutcome)
  | attemptBrowser (i : Nat) (o : BrowserOutcome)
  | backoff (d : ℚ)
  | refreshPause
deriving DecidableEq

/-- Result of make_request: the returned value (none after exhaustion or a
final failed login challenge), the event trace, and whether the global
driver exists afterwards. -/
structure FetchResult where
  value : Option FetchPath
  trace : List FetchEv
  driver : Bool
deriving DecidableEq

/-- MAX_RETRIES (douban_to_csv.py line 35). -/
def MAX_RETRIES : Nat := 3

/-- RETRY_DELAY (douban_to_csv.py line 36). -/
def RETRY_DELAY : ℚ := 5

/-- The backoff duration of lines 511 and 601:
RETRY_DELAY * (2 ** attempt) + random.uniform(1, 5). -/
def backoffDelay (env : FetchEnv) (i : Nat) : ℚ :=
  RETRY_DELAY * 2 ^ i + env.jitter i

/-- Attempt loop of make_request (douban_to_csv.py lines 487-611): fuel is
the number of attempts left, i the current attempt index, so that fuel = 0
inside a branch means this was the last attempt (attempt = MAX_RETRIES - 1).
The Selenium branch runs when use_selenium was requested or escalated, or
when the global driver already exists, and creates the driver.
Escalations to Selenium for the next attempt: HTTP 403 (line 548), a proxy
error when another attempt remains (line 576), a ConnectionError text
(line 583).  Browser connection markers and driver errors refresh the page
and pause 5 seconds (line 593).  A failed login challenge returns None at
the last attempt (line 516); loop exhaustion returns None (line 611).  All
exception paths of the source are caught, so every outcome is a value, not
a raised exception. -/
def make_request_loop (env : FetchEnv) :
    Nat → Nat → Bool → Bool → FetchResult
  | 0, _, _, driver => ⟨none, [], driver⟩
  | fuel + 1, i, useSel, driver =>
    if useSel || driver then
      match env.browser i with
      | .ok => ⟨some .browser, [.attemptBrowser i .ok], true⟩
      | .loginFail =>
        if fuel = 0 then ⟨none, [.attemptBrowser i .loginFail], true⟩
        else
          let r := make_request_loop env fuel (i + 1) useSel true
          ⟨r.value, .attemptBrowser i .loginFail :: .backoff (backoffDelay env i) :: r.trace,
           r.driver⟩
      | .connMarker =>
        if fuel = 0 then ⟨none, [.attemptBrowser i .connMarker, .refreshPause], true⟩
        else
          let r := make_request_loop env fuel (i + 1) useSel true
          ⟨r.value,
           .attemptBrowser i .connMarker :: .refreshPause
             :: .backoff (backoffDelay env i) :: r.trace,
           r.driver⟩
      | .drvErr =>
        if fuel = 0 then ⟨none, [.attemptBrowser i .drvErr, .refreshPause], true⟩
        else
          let r := make_request_loop env fuel (i + 1) useSel true
          ⟨r.value,
           .attemptBrowser i .drvErr :: .refreshPause
             :: .backoff (backoffDelay env i) :: r.trace,
           r.driver⟩
    else
      match env.http i with
      | .ok => ⟨some .http, [.attemptHttp i .ok], driver⟩
      | .sslOk => ⟨some .http, [.attemptHttp i .sslOk], driver⟩
      | .status code =>
        if fuel = 0 then ⟨none, [.attemptHttp i (.status code)], driver⟩
        else
          let r := make_request_loop env fuel (i + 1)
            (if code = 403 then true else useSel) driver
          ⟨r.value,
           .attemptHttp i (.status code) :: .backoff (backoffDelay env i) :: r.trace,
           r.driver⟩
      | .sslFail =>
        if fuel = 0 then ⟨none, [.attemptHttp i .sslFail], driver⟩
        else
          let r := make_request_loop env fuel (i + 1) useSel driver
          ⟨r.value, .attemptHttp i .sslFail :: .backoff (backoffDelay env i) :: r.trace,
           r.driver⟩
      | .proxyErr =>
        if fuel = 0 then ⟨none, [.attemptHttp i .proxyErr], driver⟩
        else
          let r := make_request_loop env fuel (i + 1) true driver
          ⟨r.value, .attemptHttp i .proxyErr :: .backoff (backoffDelay env i) :: r.trace,
           r.driver⟩
      | .connErr =>
        if fuel = 0 then ⟨none, [.attemptHttp i .connErr], driver⟩
        else
          let r := make_request_loop env fuel (i + 1) true driver
          ⟨r.value, .attemptHttp i .connErr :: .backoff (backoffDelay env i) :: r.trace,
           r.driver⟩
      | .reqErr =>
        if fuel = 0 then ⟨none, [.attemptHttp i .reqErr], driver⟩
        else
          let r := make_request_loop env fuel (i + 1) useSel driver
          ⟨r.value, .attemptHttp i .reqErr :: .backoff (backoffDelay env i) :: r.trace,
           r.driver⟩

/-- make_request (douban_to_csv.py lines 462-611): URLs containing
douban.com default to Selenium before the loop starts (lines 483-485);
then the attempt loop runs for MAX_RETRIES attempts from the
caller-requested use_selenium flag and the pre-existing global driver. -/
def make_request (env : FetchEnv) (url : PyStr) (use_selenium driver : Bool) : FetchResult :=
  let useSel :=
    if containsSub (("douban.com").data) url && !use_selenium then true else use_selenium
  make_request_loop env MAX_RETRIES 0 useSel driver

/-- Transport errors of the requests path: proxy or connection errors,
other RequestExceptions, and an SSL error whose retry also failed; a real
HTTP response of any status is not a transport error. -/
def HttpOutcome.isTransport : HttpOutcome → Bool
  | .proxyErr => true
  | .connErr => true
  | .reqErr => true
  | .sslFail => true
  | _ => false

/-- Transport-level failures of the browser path: the in-page connection
error markers or a navigation Timeout or WebDriverException. -/
def BrowserOutcome.isTransport : BrowserOutcome → Bool
  | .connMarker => true
  | .drvErr => true
  | _ => false

/-- Attempt events of a trace. -/
def isAttemptEv : FetchEv → Bool
  | .attemptHttp _ _ => true
  | .attemptBrowser _ _ => true
  | _ => false

/-- The backoff durations of a trace, in order. -/
def backoffsOf (tr : List FetchEv) : List ℚ :=
  tr.filterMap (fun e =>
    match e with
    | .backoff d => some d
    | _ => none)


@[simp]
theorem backoffsOf_nil : backoffsOf [] = [] := rfl

@[simp]
theorem backoffsOf_cons_http (i : Nat) (o : HttpOutcome) (tr : List FetchEv) :
    backoffsOf (.attemptHttp i o :: tr) = backoffsOf tr := rfl

@[simp]
theorem backoffsOf_cons_browser (i : Nat) (o : BrowserOutcome) (tr : List FetchEv) :
    backoffsOf (.attemptBrowser i o :: tr) = backoffsOf tr := rfl

@[simp]
theorem backoffsOf_cons_backoff (d : ℚ) (tr : List FetchEv) :
    backoffsOf (.backoff d :: tr) = d :: backoffsOf tr := rfl

@[simp]
theorem backoffsOf_cons_refresh (tr : List FetchEv) :
    backoffsOf (.refreshPause :: tr) = backoffsOf tr := rfl

@[simp]
theorem isAttemptEv_http (i : Nat) (o : HttpOutcome) :
    isAttemptEv (.attemptHttp i o) = true := rfl

@[simp]
theorem isAttemptEv_browser (i : Nat) (o : BrowserOutcome) :
    isAttemptEv (.attemptBrowser i o) = true := rfl

@[simp]
theorem isAttemptEv_backoff (d : ℚ) : isAttemptEv (.backoff d) = false := rfl

@[simp]
theorem isAttemptEv_refresh : isAttemptEv .refreshPause = false := rfl

/-- When every attempt of the loop ends in a transport error the fuel is
exhausted: the value is none, there is one attempt event per unit of fuel,
and between consecutive attempts exactly one backoff of
RETRY_DELAY * 2 ^ attempt plus jitter. -/
theorem make_request_loop_transport (env : FetchEnv)
    (htr : ∀ i, (env.http i).isTransport = true)
    (hbr : ∀ i, (env.browser i).isTransport = true) :
    ∀ fuel i useSel driver,
      (make_request_loop env fuel i useSel driver).value = none
      ∧ (make_request_loop env fuel i useSel driver).trace.countP isAttemptEv = fuel
      ∧ backoffsOf (make_request_loop env fuel i useSel driver).trace
          = (List.range' i (fuel - 1)).map (backoffDelay env) := by
  intro fuel
  induction fuel with
  | zero =>
    intro i useSel driver
    simp [make_request_loop]
  | succ fuel ih =>
    intro i useSel driver
    rw [make_request_loop]
    cases hb : (useSel || driver) with
    | true =>
      have hbi := hbr i
      cases hbrow : env.browser i with
      | ok => simp [hbrow, BrowserOutcome.isTransport] at hbi
      | loginFail => simp [hbrow, BrowserOutcome.isTransport] at hbi
      | connMarker =>
        cases fuel with
        | zero => simp [hbrow, List.countP_cons]
        | succ n =>
          obtain ⟨h1, h2, h3⟩ := ih (i + 1) useSel true
          simp [hbrow, List.countP_cons, h1, h2, h3, List.range']
      | drvErr =>
        cases fuel with
        | zero => simp [hbrow, List.countP_cons]
        | succ n =>
          obtain ⟨h1, h2, h3⟩ := ih (i + 1) useSel true
          simp [hbrow, List.countP_cons, h1, h2, h3, List.range']
    | false =>
      have hti := htr i
      cases http : env.http i with
      | ok => simp [http, HttpOutcome.isTransport] at hti
      | sslOk => simp [http, HttpOutcome.isTransport] at hti
      | status code => simp [http, HttpOutcome.isTransport] at hti
      | sslFail =>
        cases fuel with
        | zero => simp [hb, http, List.countP_cons]
        | succ n =>
          obtain ⟨h1, h2, h3⟩ := ih (i + 1) useSel driver
          simp [hb, http, List.countP_cons, h1, h2, h3, List.range']
      | proxyErr =>
        cases fuel with
        | zero => simp [hb, http, List.countP_cons]
        | succ n =>
          obtain ⟨h1, h2, h3⟩ := ih (i + 1) true driver
          simp [hb, http, List.countP_cons, h1, h2, h3, List.range']
      | connErr =>
        cases fuel with
        | zero => simp [hb, http, List.countP_cons]
        | succ n =>
          obtain ⟨h1, h2, h3⟩ := ih (i + 1) true driver
          simp [hb, http, List.countP_cons, h1, h2, h3, List.range']
      | reqErr =>
        cases fuel with
        | zero => simp [hb, http, List.countP_cons]
        | succ n =>
          obtain ⟨h1, h2, h3⟩ := ih (i + 1) useSel driver
          simp [hb, http, List.countP_cons, h1, h2, h3, List.range']

/-- C3: for every target URL and starting state, if every one of the
fetcher attempts ends in a transport error, make_request returns None —
not a raised exception — after exactly MAX_RETRIES = 3 attempts, and
consecutive attempts are separated by a backoff of
RETRY_DELAY * 2 ^ attempt plus the drawn random jitter. -/
theorem make_request_transport_exhaustion (env : FetchEnv) (url : PyStr)
    (use_selenium driver : Bool)
    (htr : ∀ i, (env.http i).isTransport = true)
    (hbr : ∀ i, (env.browser i).isTransport = true) :
    (make_request env url use_selenium driver).value = none
    ∧ (make_request env url use_selenium driver).trace.countP isAttemptEv = MAX_RETRIES
    ∧ backoffsOf (make_request env url use_selenium driver).trace
        = [RETRY_DELAY * 2 ^ 0 + env.jitter 0, RETRY_DELAY * 2 ^ 1 + env.jitter 1] := by
  obtain ⟨h1, h2, h3⟩ :=
    make_request_loop_transport env htr hbr MAX_RETRIES 0
      (if containsSub (("douban.com").data) url && !use_selenium then true else use_selenium)
      driver
  refine ⟨h1, h2, ?_⟩
  rw [make_request, h3]
  simp [MAX_RETRIES, List.range', backoffDelay]

/-- Concrete environment for the C3 witness: the requests path always hits
a connection error, the browser path always a driver error, jitter 2. -/
def c3env : FetchEnv := ⟨fun _ => .connErr, fun _ => .drvErr, fun _ => 2⟩

/-- Witness for C3: under the always-failing environment the fetch of an
example URL yields none after 3 attempts with the two exponential
backoffs. -/
theorem make_request_transport_exhaustion_witness :
    (make_request c3env (("https://example.com/a").data) false false).value = none
    ∧ (make_request c3env (("https://example.com/a").data) false false).trace.countP
        isAttemptEv = MAX_RETRIES
    ∧ backoffsOf (make_request c3env (("https://example.com/a").data) false false).trace
        = [RETRY_DELAY * 2 ^ 0 + c3env.jitter 0, RETRY_DELAY * 2 ^ 1 + c3env.jitter 1] :=
  make_request_transport_exhaustion c3env (("https://example.com/a").data) false false
    (fun _ => rfl) (fun _ => rfl)

/-- Events that escalate the fetcher to the browser path for later
attempts: an HTTP 403 status, a proxy error, or a ConnectionError. -/
def escalationEv : FetchEv → Bool
  | .attemptHttp _ (.status c) => c == 403
  | .attemptHttp _ .proxyErr => true
  | .attemptHttp _ .connErr => true
  | _ => false

/-- Browser-path attempt events. -/
def browserEv : FetchEv → Bool
  | .attemptBrowser _ _ => true
  | _ => false

/-- No browser attempt occurs before the first escalation trigger of the
trace: scan the events and fail on a browser attempt seen before any
escalation event. -/
def browserPreceded : List FetchEv → Bool
  | [] => true
  | e :: rest =>
    if browserEv e then false
    else if escalationEv e then true
    else browserPreceded rest

/-- Starting from the lightweight path with no pre-existing driver, the
first event of the loop is the HTTP attempt of the current index. -/
theorem make_request_loop_first_http (env : FetchEnv) (fuel i : Nat) :
    (make_request_loop env (fuel + 1) i false false).trace.head?
      = some (.attemptHttp i (env.http i)) := by
  rw [make_request_loop]
  cases http : env.http i <;> simp [http] <;> split <;> simp

/-- Starting from the lightweight path with no pre-existing driver, no
browser attempt happens before an escalation trigger: HTTP 403, a proxy
error, or a connection error. -/
theorem make_request_loop_http_first (env : FetchEnv) :
    ∀ fuel i, browserPreceded (make_request_loop env fuel i false false).trace = true := by
  intro fuel
  induction fuel with
  | zero =>
    intro i
    simp [make_request_loop, browserPreceded]
  | succ fuel ih =>
    intro i
    rw [make_request_loop]
    cases http : env.http i with
    | ok => simp [http, browserPreceded, browserEv, escalationEv]
    | sslOk => simp [http, browserPreceded, browserEv, escalationEv]
    | status code =>
      cases fuel with
      | zero => simp [http, browserPreceded, browserEv, escalationEv]
      | succ n =>
        by_cases hc : code = 403
        · simp [http, hc, browserPreceded, browserEv, escalationEv]
        · simp [http, hc, browserPreceded, browserEv, escalationEv, ih (i + 1)]
    | sslFail =>
      cases fuel with
      | zero => simp [http, browserPreceded, browserEv, escalationEv]
      | succ n => simp [http, browserPreceded, browserEv, escalationEv, ih (i + 1)]
    | proxyErr =>
      cases fuel with
      | zero => simp [http, browserPreceded, browserEv, escalationEv]
      | succ n => simp [http, browserPreceded, browserEv, escalationEv]
    | connErr =>
      cases fuel with
      | zero => simp [http, browserPreceded, browserEv, escalationEv]
      | succ n => simp [http, browserPreceded, browserEv, escalationEv]
    | reqErr =>
      cases fuel with
      | zero => simp [http, browserPreceded, browserEv, escalationEv]
      | succ n => simp [http, browserPreceded, browserEv, escalationEv, ih (i + 1)]

/-- C4 (amended): for target URLs not containing douban.com, called without
a Selenium request and with no pre-existing browser session, the fetcher
attempts the lightweight HTTP call first, and the browser path is never
entered before an escalation trigger — an HTTP 403, a proxy error, or a
connection error; for douban.com URLs, and when a browser session already
exists, the fetcher goes straight to the browser path by default (see the
counterexample). -/
theorem make_request_http_first_amended (env : FetchEnv) (url : PyStr)
    (hurl : containsSub (("douban.com").data) url = false) :
    (make_request env url false false).trace.head?
      = some (.attemptHttp 0 (env.http 0))
    ∧ browserPreceded (make_request env url false false).trace = true := by
  rw [make_request]
  simp only [hurl, Bool.false_and, if_neg (Bool.false_ne_true)]
  exact ⟨make_request_loop_first_http env 2 0, make_request_loop_http_first env 3 0⟩

/-- Clean environment for the C4 counterexample and witness: everything
succeeds on the first try. -/
def c4env : FetchEnv := ⟨fun _ => .ok, fun _ => .ok, fun _ => 0⟩

/-- C4 counterexample: the claim says the fetcher first attempts a
lightweight HTTP call for every target URL and never takes the browser
path on the first attempt absent a failure, but for a douban.com URL
make_request uses Selenium on the very first attempt (douban_to_csv.py
lines 483-485) although no failure of any kind occurred. -/
theorem make_request_douban_selenium_cex :
    make_request c4env (("https://movie.douban.com/people/u/collect").data) false false
      = ⟨some .browser, [.attemptBrowser 0 .ok], true⟩ := by
  decide

/-- Witness for C4 (amended): a non-douban URL starts with the HTTP attempt
and its trace contains no browser attempt before an escalation trigger. -/
theorem make_request_http_first_witness :
    (make_request c4env (("https://example.com/a").data) false false).trace.head?
      = some (.attemptHttp 0 (c4env.http 0))
    ∧ browserPreceded
        (make_request c4env (("https://example.com/a").data) false false).trace = true :=
  make_request_http_first_amended c4env (("https://example.com/a").data) (by decide)

/-- Characters that force QUOTE_MINIMAL quoting in the exporter writer: the
delimiter, the quote character, and the characters of the line terminator —
which is the single newline character here, so a carriage return does not
force quoting. -/
def csvSpecial (c : Char) : Bool := c = ',' || c = '"' || c = '\n'

/-- Double every quote character of a field body. -/
def escapeQuotes : PyStr → PyStr
  | [] => []
  | c :: rest => if c = '"' then '"' :: '"' :: escapeQuotes rest else c :: escapeQuotes rest

/-- One field written under QUOTE_MINIMAL: quoted with doubled inner quotes
when it contains a special character, verbatim otherwise. -/
def writeField (f : PyStr) : PyStr :=
  if f.any csvSpecial then '"' :: (escapeQuotes f ++ ['"']) else f

/-- One field as written inside a row: the writer quotes an empty field
when it is the only field of its row, keeping it distinct from an empty
row; otherwise writeField. -/
def writeFieldIn (numFields : Nat) (f : PyStr) : PyStr :=
  if numFields == 1 && f.isEmpty then ['"', '"'] else writeField f

/-- One row written by csv.writer with newline line terminator: the fields
joined by commas, terminated by a newline. -/
def writeRow (fields : List PyStr) : PyStr :=
  List.intercalate [','] (fields.map (writeFieldIn fields.length)) ++ ['\n']

/-- csv.writer(...).writerows: every row in order. -/
def writerows (rows : List (List PyStr)) : PyStr :=
  (rows.map writeRow).flatten

/-- Decimal digit character. -/
def digitChar : Nat → Char
  | 0 => '0' | 1 => '1' | 2 => '2' | 3 => '3' | 4 => '4'
  | 5 => '5' | 6 => '6' | 7 => '7' | 8 => '8' | 9 => '9'
  | _ => '?'

/-- Decimal digits of a natural number, fuel-indexed to stay structural;
fuel n + 1 is always sufficient for n. -/
def natDigits : Nat → Nat → PyStr
  | 0, _ => []
  | fuel + 1, n =>
    if n < 10 then [digitChar n]
    else natDigits fuel (n / 10) ++ [digitChar (n % 10)]

/-- str() of a Python int, as the csv writer applies it to rating values. -/
def serInt : Int → PyStr
  | .ofNat n => natDigits (n + 1) n
  | .negSucc m => '-' :: natDigits (m + 2) (m + 1)

/-- The three strings csv.writer writes for one exported record: the title,
str(rating) with None as the empty string, and the id with None as the
empty string. -/
def serializeRecord (r : MovieRecord) : List PyStr :=
  [r.title,
   match r.rating with
   | none => []
   | some n => serInt n,
   r.imdb.getD []]

/-- The CSV text written by export (douban_to_csv.py lines 355-358):
csv.writer with newline line terminator over the serialized records, the
file opened with newline disabled so the text is written verbatim. -/
def export_csv (info : List MovieRecord) : PyStr :=
  writerows (info.map serializeRecord)

/-- Universal-newline translation performed by open() in text mode without
the newline argument, as the importer opens movie.csv (csv_to_imdb.py line
138): carriage return + newline, and a lone carriage return, both become
newline — including inside quoted fields, which is why the csv module
documentation asks for newline to be disabled. -/
def univNLFuel : Nat → PyStr → PyStr
  | 0, s => s
  | _ + 1, [] => []
  | fuel + 1, c :: rest =>
    if c = '\r' then
      match rest with
      | '\n' :: rest2 => '\n' :: univNLFuel fuel rest2
      | _ => '\n' :: univNLFuel fuel rest
    else c :: univNLFuel fuel rest

/-- Universal-newline translation, with fuel the length of the stream so it
never runs out. -/
def univNL (s : PyStr) : PyStr := univNLFuel s.length s

/-- States of the csv.reader field machine. -/
inductive CsvSt
  | startRecord
  | startField
  | inField
  | inQuoted
  | quoteInQuoted
deriving DecidableEq

/-- The csv.reader character machine (non-strict dialect, comma delimiter,
double-quote quoting), run over the already newline-translated stream, so
newline is the only end-of-line character it can meet.  fa is the field
collected so far, ra the finished fields of the current row, out the
finished rows; a blank line yields an empty row, an unterminated quoted
field at end of input yields the field as collected. -/
def runCsv : PyStr → CsvSt → PyStr → List PyStr → List (List PyStr) → List (List PyStr)
  | [], .startRecord, _, _, out => out
  | [], .startField, _, ra, out => out ++ [ra ++ [[]]]
  | [], .inField, fa, ra, out => out ++ [ra ++ [fa]]
  | [], .inQuoted, fa, ra, out => out ++ [ra ++ [fa]]
  | [], .quoteInQuoted, fa, ra, out => out ++ [ra ++ [fa]]
  | c :: rest, .startRecord, _, _, out =>
    if c = '\n' then runCsv rest .startRecord [] [] (out ++ [[]])
    else if c = '"' then runCsv rest .inQuoted [] [] out
    else if c = ',' then runCsv rest .startField [] [[]] out
    else runCsv rest .inField [c] [] out
  | c :: rest, .startField, _, ra, out =>
    if c = '\n' then runCsv rest .startRecord [] [] (out ++ [ra ++ [[]]])
    else if c = '"' then runCsv rest .inQuoted [] ra out
    else if c = ',' then runCsv rest .startField [] (ra ++ [[]]) out
    else runCsv rest .inField [c] ra out
  | c :: rest, .inField, fa, ra, out =>
    if c = '\n' then runCsv rest .startRecord [] [] (out ++ [ra ++ [fa]])
    else if c = ',' then runCsv rest .startField [] (ra ++ [fa]) out
    else runCsv rest .inField (fa ++ [c]) ra out
  | c :: rest, .inQuoted, fa, ra, out =>
    if c = '"' then runCsv rest .quoteInQuoted fa ra out
    else runCsv rest .inQuoted (fa ++ [c]) ra out
  | c :: rest, .quoteInQuoted, fa, ra, out =>
    if c = '"' then runCsv rest .inQuoted (fa ++ ['"']) ra out
    else if c = ',' then runCsv rest .startField [] (ra ++ [fa]) out
    else if c = '\n' then runCsv rest .startRecord [] [] (out ++ [ra ++ [fa]])
    else runCsv rest .inField (fa ++ [c]) ra out

/-- csv.reader over the file as the importer opens it: newline translation,
then the machine from the start state. -/
def csv_read (content : PyStr) : List (List PyStr) :=
  runCsv (univNL content) .startRecord [] [] []

/-- C7 counterexample: the claim quantifies over every record list, but a
title holding a carriage return breaks the round trip: the writer does not
quote it (the line terminator is the single newline), the importer opens
the file in universal-newline mode which turns the carriage return into a
newline, and the single written record reads back as two rows with mangled
titles instead of one. -/
theorem csv_roundtrip_cex :
    csv_read (export_csv [⟨['a', '\r', 'b'], none, none⟩])
      = [[['a']], [['b'], [], []]]
    ∧ (csv_read (export_csv [⟨['a', '\r', 'b'], none, none⟩])).length = 2 := by
  decide

theorem intercalate_three (a b c : PyStr) :
    List.intercalate [','] [a, b, c] = a ++ ',' :: (b ++ ',' :: c) := by
  simp [List.intercalate, List.intersperse]

/-- Consuming the characters of an unquoted field: no special character, so
the machine stays in the field state and accumulates. -/
theorem runCsv_consume_field (f : PyStr) (h : ∀ c ∈ f, csvSpecial c = false) :
    ∀ rest fa ra out, runCsv (f ++ rest) .inField fa ra out
      = runCsv rest .inField (fa ++ f) ra out := by
  induction f with
  | nil => intro rest fa ra out; simp
  | cons c f ih =>
    intro rest fa ra out
    have hc := h c (List.mem_cons_self c f)
    simp only [csvSpecial, Bool.or_eq_false_iff, decide_eq_false_iff_not] at hc
    obtain ⟨⟨hc1, hc2⟩, hc3⟩ := hc
    have ih' := ih (fun x hx => h x (List.mem_cons_of_mem c hx)) rest (fa ++ [c]) ra out
    simp [runCsv, hc1, hc3, ih']

/-- Consuming a quoted field body: the escaped body followed by the closing
quote brings the machine to the quote-in-quoted state with the raw field
accumulated. -/
theorem runCsv_consume_quoted (f : PyStr) :
    ∀ rest fa ra out, runCsv (escapeQuotes f ++ '"' :: rest) .inQuoted fa ra out
      = runCsv rest .quoteInQuoted (fa ++ f) ra out := by
  induction f with
  | nil => intro rest fa ra out; simp [escapeQuotes, runCsv]
  | cons c f ih =>
    intro rest fa ra out
    by_cases hc : c = '"'
    · subst hc
      have ih' := ih rest (fa ++ ['"']) ra out
      simp [escapeQuotes, runCsv, ih']
    · have ih' := ih rest (fa ++ [c]) ra out
      simp [escapeQuotes, runCsv, hc, ih']

/-- A written field followed by a comma, read from the start of a record:
the field is recovered and the machine waits for the next field. -/
theorem runCsv_field_startRecord (f : PyStr) (rest : PyStr) (out : List (List PyStr)) :
    runCsv (writeField f ++ ',' :: rest) .startRecord [] [] out
      = runCsv rest .startField [] [f] out := by
  by_cases hq : f.any csvSpecial
  · have hq' := runCsv_consume_quoted f (',' :: rest) [] [] out
    simp [writeField, hq, runCsv, hq']
  · cases f with
    | nil => simp [writeField, runCsv]
    | cons c f' =>
      have hall : ∀ x ∈ c :: f', csvSpecial x = false := by
        simpa [List.any_eq_false] using hq
      have hc := hall c (List.mem_cons_self c f')
      simp only [csvSpecial, Bool.or_eq_false_iff, decide_eq_false_iff_not] at hc
      obtain ⟨⟨hc1, hc2⟩, hc3⟩ := hc
      have hcf := runCsv_consume_field f'
        (fun x hx => hall x (List.mem_cons_of_mem c hx)) (',' :: rest) [c] [] out
      simp [writeField, hq, runCsv, hc1, hc2, hc3, hcf]

/-- A written field followed by a comma, read while expecting a field: the
field is appended to the row and the machine waits for the next field. -/
theorem runCsv_field_startField (f : PyStr) (rest : PyStr) (ra : List PyStr)
    (out : List (List PyStr)) :
    runCsv (writeField f ++ ',' :: rest) .startField [] ra out
      = runCsv rest .startField [] (ra ++ [f]) out := by
  by_cases hq : f.any csvSpecial
  · have hq' := runCsv_consume_quoted f (',' :: rest) [] ra out
    simp [writeField, hq, runCsv, hq']
  · cases f with
    | nil => simp [writeField, runCsv]
    | cons c f' =>
      have hall : ∀ x ∈ c :: f', csvSpecial x = false := by
        simpa [List.any_eq_false] using hq
      have hc := hall c (List.mem_cons_self c f')
      simp only [csvSpecial, Bool.or_eq_false_iff, decide_eq_false_iff_not] at hc
      obtain ⟨⟨hc1, hc2⟩, hc3⟩ := hc
      have hcf := runCsv_consume_field f'
        (fun x hx => hall x (List.mem_cons_of_mem c hx)) (',' :: rest) [c] ra out
      simp [writeField, hq, runCsv, hc1, hc2, hc3, hcf]

/-- A written field followed by the row terminator, read while expecting a
field: the row is finished and emitted. -/
theorem runCsv_field_last (f : PyStr) (rest : PyStr) (ra : List PyStr)
    (out : List (List PyStr)) :
    runCsv (writeField f ++ '\n' :: rest) .startField [] ra out
      = runCsv rest .startRecord [] [] (out ++ [ra ++ [f]]) := by
  by_cases hq : f.any csvSpecial
  · have hq' := runCsv_consume_quoted f ('\n' :: rest) [] ra out
    simp [writeField, hq, runCsv, hq']
  · cases f with
    | nil => simp [writeField, runCsv]
    | cons c f' =>
      have hall : ∀ x ∈ c :: f', csvSpecial x = false := by
        simpa [List.any_eq_false] using hq
      have hc := hall c (List.mem_cons_self c f')
      simp only [csvSpecial, Bool.or_eq_false_iff, decide_eq_false_iff_not] at hc
      obtain ⟨⟨hc1, hc2⟩, hc3⟩ := hc
      have hcf := runCsv_consume_field f'
        (fun x hx => hall x (List.mem_cons_of_mem c hx)) ('\n' :: rest) [c] ra out
      simp [writeField, hq, runCsv, hc1, hc2, hc3, hcf]

/-- A written three-field row followed by more text: the row is recovered
exactly and reading continues at the start of the next record. -/
theorem runCsv_writeRow3 (f1 f2 f3 : PyStr) (rest : PyStr) (out : List (List PyStr)) :
    runCsv (writeRow [f1, f2, f3] ++ rest) .startRecord [] [] out
      = runCsv rest .startRecord [] [] (out ++ [[f1, f2, f3]]) := by
  have h : writeRow [f1, f2, f3] ++ rest
      = writeField f1 ++ ',' :: (writeField f2 ++ ',' :: (writeField f3 ++ '\n' :: rest)) := by
    simp [writeRow, writeFieldIn, intercalate_three]
  rw [h, runCsv_field_startRecord, runCsv_field_startField, runCsv_field_last]
  simp

/-- The written form of a record list followed by more text: all rows are
recovered in order. -/
theorem runCsv_writerows (rs : List MovieRecord) :
    ∀ rest out, runCsv (writerows (rs.map serializeRecord) ++ rest) .startRecord [] [] out
      = runCsv rest .startRecord [] [] (out ++ rs.map serializeRecord) := by
  induction rs with
  | nil => intro rest out; simp [writerows]
  | cons r rs ih =>
    intro rest out
    have h : writerows ((r :: rs).map serializeRecord) ++ rest
        = writeRow (serializeRecord r) ++ (writerows (rs.map serializeRecord) ++ rest) := by
      simp [writerows]
    have h2 : writeRow (serializeRecord r)
        = writeRow [r.title,
            match r.rating with
            | none => []
            | some n => serInt n,
            r.imdb.getD []] := rfl
    rw [h, h2, runCsv_writeRow3, ih]
    simp [serializeRecord]

/-- With any fuel, newline translation is the identity on text without
carriage returns. -/
theorem univNLFuel_of_no_cr : ∀ fuel s, '\r' ∉ s → univNLFuel fuel s = s := by
  intro fuel
  induction fuel with
  | zero => intro s _; rfl
  | succ fuel ih =>
    intro s h
    cases s with
    | nil => rfl
    | cons c t =>
      have ht : '\r' ∉ t := fun hm => h (List.mem_cons_of_mem c hm)
      have hc : ¬ c = '\r' := by
        intro hc
        exact h (by simp [hc])
      simp [univNLFuel, hc, ih t ht]

/-- Newline translation is the identity on text without carriage returns. -/
theorem univNL_of_no_cr (s : PyStr) (h : '\r' ∉ s) : univNL s = s :=
  univNLFuel_of_no_cr s.length s h

theorem cr_not_mem_escapeQuotes (f : PyStr) (h : '\r' ∉ f) : '\r' ∉ escapeQuotes f := by
  induction f with
  | nil => simp [escapeQuotes]
  | cons c t ih =>
    have ht : '\r' ∉ t := fun hm => h (List.mem_cons_of_mem c hm)
    have hc : ¬ ('\r' : Char) = c := by
      intro hc
      exact h (by simp [hc.symm])
    have hq : ¬ ('\r' : Char) = '"' := by decide
    by_cases hcq : c = '"'
    · simp [escapeQuotes, hcq, List.mem_cons, hq, ih ht]
    · simp [escapeQuotes, hcq, List.mem_cons, hc, ih ht]

theorem cr_not_mem_writeField (f : PyStr) (h : '\r' ∉ f) : '\r' ∉ writeField f := by
  by_cases hq : f.any csvSpecial
  · have hne : ¬ ('\r' : Char) = '"' := by decide
    simp [writeField, hq, List.mem_cons, List.mem_append, hne, cr_not_mem_escapeQuotes f h]
  · simpa [writeField, hq] using h

theorem digitChar_ne_cr (k : Nat) : ¬ ('\r' : Char) = digitChar k := by
  unfold digitChar
  split <;> decide

theorem cr_not_mem_natDigits : ∀ fuel n, '\r' ∉ natDigits fuel n := by
  intro fuel
  induction fuel with
  | zero => intro n; simp [natDigits]
  | succ fuel ih =>
    intro n
    by_cases hn : n < 10
    · simp [natDigits, hn, digitChar_ne_cr n]
    · simp [natDigits, hn, List.mem_append, ih (n / 10), digitChar_ne_cr (n % 10)]

theorem cr_not_mem_serInt (i : Int) : '\r' ∉ serInt i := by
  cases i with
  | ofNat n => simpa [serInt] using cr_not_mem_natDigits (n + 1) n
  | negSucc m =>
    have hminus : ¬ ('\r' : Char) = '-' := by decide
    simp [serInt, List.mem_cons, hminus, cr_not_mem_natDigits (m + 2) (m + 1)]

theorem cr_not_mem_writeRow3 (f1 f2 f3 : PyStr)
    (h1 : '\r' ∉ f1) (h2 : '\r' ∉ f2) (h3 : '\r' ∉ f3) :
    '\r' ∉ writeRow [f1, f2, f3] := by
  have e : writeRow [f1, f2, f3]
      = writeField f1 ++ ',' :: (writeField f2 ++ ',' :: (writeField f3 ++ ['\n'])) := by
    simp [writeRow, writeFieldIn, intercalate_three]
  have hcomma : ¬ ('\r' : Char) = ',' := by decide
  have hnl : ¬ ('\r' : Char) = '\n' := by decide
  rw [e]
  simp [List.mem_append, List.mem_cons, hcomma, hnl,
    cr_not_mem_writeField f1 h1, cr_not_mem_writeField f2 h2, cr_not_mem_writeField f3 h3]

theorem cr_not_mem_export_csv (rs : List MovieRecord)
    (h : ∀ r ∈ rs, '\r' ∉ r.title ∧ '\r' ∉ r.imdb.getD []) :
    '\r' ∉ export_csv rs := by
  induction rs with
  | nil => simp [export_csv, writerows]
  | cons r rs ih =>
    have hr := h r (List.mem_cons_self r rs)
    have hrest := ih (fun x hx => h x (List.mem_cons_of_mem r hx))
    have e : export_csv (r :: rs) = writeRow (serializeRecord r) ++ export_csv rs := by
      simp [export_csv, writerows]
    have hrate : '\r' ∉ (match r.rating with
        | none => ([] : PyStr)
        | some n => serInt n) := by
      cases r.rating with
      | none => simp
      | some n => simpa using cr_not_mem_serInt n
    have hrow : '\r' ∉ writeRow (serializeRecord r) :=
      cr_not_mem_writeRow3 r.title _ (r.imdb.getD []) hr.1 hrate hr.2
    rw [e]
    simp [List.mem_append, hrow, hrest]

/-- C7 (amended): for every list of records whose titles and external ids
contain no carriage return, writing them with the exporter CSV writer and
reading the file back with the importer CSV reader yields exactly one row
per record, in order, with identical title, rating and external-id strings,
null rating and null id serialized as the empty string; a carriage return
inside a field breaks the round trip (see the counterexample), because the
writer does not quote it and the reader opens the file in universal-newline
mode. -/
theorem csv_roundtrip (rs : List MovieRecord)
    (h : ∀ r ∈ rs, '\r' ∉ r.title ∧ '\r' ∉ r.imdb.getD []) :
    csv_read (export_csv rs) = rs.map serializeRecord := by
  have hnc : '\r' ∉ export_csv rs := cr_not_mem_export_csv rs h
  rw [csv_read, univNL_of_no_cr _ hnc]
  have h0 := runCsv_writerows rs [] []
  simpa [export_csv, runCsv] using h0

/-- Witness for C7 (amended): two records — one with rating and id, one
with a title containing the delimiter and a quote and with null rating and
id — round-trip exactly, nulls as empty strings. -/
theorem csv_roundtrip_witness :
    csv_read (export_csv
        [⟨("Alien").data, some 5, some (("tt0078748").data)⟩,
         ⟨("say \"hi\", ok").data, none, none⟩])
      = [⟨("Alien").data, some 5, some (("tt0078748").data)⟩,
         ⟨("say \"hi\", ok").data, none, none⟩].map serializeRecord :=
  csv_roundtrip
    [⟨("Alien").data, some 5, some (("tt0078748").data)⟩,
     ⟨("say \"hi\", ok").data, none, none⟩]
    (by decide)
